import Mathlib

/-!
# xds: cluster-resource decoding and bootstrap identity

A shallow embedding of `core/xdsresource/cds.go`, `core/manager/bootstrap.go` and
`core/manager/option.go`, followed by the properties proved about it.

Conventions of the embedding

* A Go `error` is represented by its message; a nil-able `error` is an `Option GoError`.
* A Go pointer that may be nil is an `Option`.
* A Go `map[string]V` is a `GoMap V`: a list of entries with pairwise distinct keys.
  Go does not expose an order on map entries, so maps are compared through `GoMap.get?`.
* Go `int`, `int32` and `time.Duration` values are `Int`s.
* Functions of imported packages (`proto.Unmarshal`, `protojson.Unmarshal`) and the
  decoder `parseClusterLoadAssignment`, defined outside the three files above, are
  parameters: those of `cds.go` are gathered in `Externals`.
-/

namespace Xds

/-! ## Go values -/

/-- A Go `error` value, identified with the message it carries. -/
abbrev GoError := String

/-- A Go `map[string]V`. The entries have pairwise distinct keys (`GoMap.set` keeps it so). -/
structure GoMap (V : Type) where
  entries : List (String × V)
deriving DecidableEq, Repr

namespace GoMap

variable {V : Type}

/-- The result of `make(map[string]V)`. -/
def empty : GoMap V := ⟨[]⟩

/-- The lookup `m[k]`, with `none` for an absent key. -/
def get? (m : GoMap V) (k : String) : Option V :=
  m.entries.lookup k

/-- The assignment `m[k] = v`: any entry under `k` is replaced. -/
def set (m : GoMap V) (k : String) (v : V) : GoMap V :=
  ⟨(k, v) :: m.entries.filter (fun p => p.1 != k)⟩

/-- The keys present in the map. -/
def keys (m : GoMap V) : List String :=
  m.entries.map Prod.fst

/-- The Go builtin `len(m)`. -/
def len (m : GoMap V) : Nat :=
  m.entries.length

end GoMap

/-! ## `core/xdsresource/cds.go` -/

/-- The type `ClusterDiscoveryType int`. -/
abbrev ClusterDiscoveryType := Int

def ClusterDiscoveryTypeEDS : ClusterDiscoveryType := 0
def ClusterDiscoveryTypeLogicalDNS : ClusterDiscoveryType := 1
def ClusterDiscoveryTypeStatic : ClusterDiscoveryType := 2

/-- The method `ClusterDiscoveryType.String`. -/
def ClusterDiscoveryType.String (d : ClusterDiscoveryType) : String :=
  if d = ClusterDiscoveryTypeEDS then "EDS"
  else if d = ClusterDiscoveryTypeLogicalDNS then "LOGICAL_DNS"
  else "Static"

/-- The type `ClusterLbPolicy int`. -/
abbrev ClusterLbPolicy := Int

def ClusterLbRoundRobin : ClusterLbPolicy := 0
def ClusterLbRingHash : ClusterLbPolicy := 1

/-- The method `ClusterLbPolicy.String`. -/
def ClusterLbPolicy.String (p : ClusterLbPolicy) : String :=
  if p = ClusterLbRoundRobin then "roundrobin"
  else if p = ClusterLbRingHash then "ringhash"
  else ""

/-- The wire enumeration `v3clusterpb.Cluster_DiscoveryType` (an `int32`), with the numbers
the envoy protocol assigns to its members. -/
abbrev Cluster_DiscoveryType := Int

def Cluster_STATIC : Cluster_DiscoveryType := 0
def Cluster_STRICT_DNS : Cluster_DiscoveryType := 1
def Cluster_LOGICAL_DNS : Cluster_DiscoveryType := 2
def Cluster_EDS : Cluster_DiscoveryType := 3
def Cluster_ORIGINAL_DST : Cluster_DiscoveryType := 4

/-- The wire enumeration `v3clusterpb.Cluster_LbPolicy` (an `int32`), with the numbers the
envoy protocol assigns to its members. -/
abbrev Cluster_LbPolicy := Int

def Cluster_ROUND_ROBIN : Cluster_LbPolicy := 0
def Cluster_LEAST_REQUEST : Cluster_LbPolicy := 1
def Cluster_RING_HASH : Cluster_LbPolicy := 2
def Cluster_RANDOM : Cluster_LbPolicy := 3
def Cluster_MAGLEV : Cluster_LbPolicy := 5

/-- The function `convertDiscoveryType`. -/
def convertDiscoveryType (t : Cluster_DiscoveryType) : ClusterDiscoveryType :=
  if t = Cluster_EDS then ClusterDiscoveryTypeEDS
  else if t = Cluster_LOGICAL_DNS then ClusterDiscoveryTypeLogicalDNS
  else if t = Cluster_STATIC then ClusterDiscoveryTypeStatic
  else ClusterDiscoveryTypeEDS

/-- The function `convertLbPolicy`. -/
def convertLbPolicy (lb : Cluster_LbPolicy) : ClusterLbPolicy :=
  if lb = Cluster_ROUND_ROBIN then ClusterLbRoundRobin
  else if lb = Cluster_RING_HASH then ClusterLbRingHash
  else ClusterLbRoundRobin

/-- The wire message `ClusterLoadAssignment`. Only the collaborator
`parseClusterLoadAssignment` reads it, so it is kept as an uninterpreted code. -/
structure ClusterLoadAssignment where
  code : Nat
deriving DecidableEq, Repr

/-- The decoded endpoint set `EndpointsResource`, produced only by the collaborator
`parseClusterLoadAssignment`, kept as an uninterpreted code. -/
structure EndpointsResource where
  code : Nat
deriving DecidableEq, Repr

/-- The wire message `Cluster_EdsClusterConfig`, restricted to the field that is read. -/
structure EdsClusterConfig where
  ServiceName : String
deriving DecidableEq, Repr

/-- The wire message `v3clusterpb.Cluster`, restricted to the fields that are read. -/
structure Cluster where
  Name : String
  Typ : Cluster_DiscoveryType
  LbPolicy : Cluster_LbPolicy
  EdsClusterConfig : Option EdsClusterConfig
  LoadAssignment : Option ClusterLoadAssignment
deriving DecidableEq, Repr

/-- The getter `GetType`. -/
def Cluster.GetType (c : Cluster) : Cluster_DiscoveryType := c.Typ

/-- The getter `GetLbPolicy`. -/
def Cluster.GetLbPolicy (c : Cluster) : Cluster_LbPolicy := c.LbPolicy

/-- The getter chain `GetEdsClusterConfig().GetServiceName()`: empty on a nil config. -/
def Cluster.GetServiceName (c : Cluster) : String :=
  match c.EdsClusterConfig with
  | some e => e.ServiceName
  | none => ""

/-- The getter `GetLoadAssignment`. -/
def Cluster.GetLoadAssignment (c : Cluster) : Option ClusterLoadAssignment := c.LoadAssignment

/-- The struct `ClusterResource`. -/
structure ClusterResource where
  DiscoveryType : ClusterDiscoveryType
  LbPolicy : ClusterLbPolicy
  EndpointName : String
  InlineEndpoints : Option EndpointsResource
deriving DecidableEq, Repr

/-- The opaque typed payload `any.Any`: a type tag and raw bytes. -/
structure AnyMsg where
  TypeUrl : String
  Value : List Nat
deriving DecidableEq, Repr

/-- What `cds.go` uses without defining it: the constant `ClusterTypeURL`, the library
function `proto.Unmarshal` into a `Cluster`, and `parseClusterLoadAssignment`. -/
structure Externals where
  ClusterTypeURL : String
  protoUnmarshal : List Nat → Except GoError Cluster
  parseClusterLoadAssignment : Option ClusterLoadAssignment → Except GoError (Option EndpointsResource)

/-- The function `unmarshalCluster`: the name, the resource (nil on failure) and the error. -/
def unmarshalCluster (x : Externals) (r : AnyMsg) :
    String × Option ClusterResource × Option GoError :=
  if r.TypeUrl ≠ x.ClusterTypeURL then
    ("", none, some ("invalid cluster resource type: " ++ r.TypeUrl))
  else
    match x.protoUnmarshal r.Value with
    | .error err => ("", none, some ("unmarshal cluster failed: " ++ err))
    | .ok c =>
      let ret : ClusterResource :=
        { DiscoveryType := convertDiscoveryType c.GetType
          LbPolicy := convertLbPolicy c.GetLbPolicy
          EndpointName := c.Name
          InlineEndpoints := none }
      let ret : ClusterResource :=
        if c.GetServiceName ≠ "" then { ret with EndpointName := c.GetServiceName } else ret
      match x.parseClusterLoadAssignment c.GetLoadAssignment with
      | .error err => (c.Name, none, some err)
      | .ok inlineEndpoints => (c.Name, some { ret with InlineEndpoints := inlineEndpoints }, none)

/-- The aggregated error built from the two failure classes. -/
structure AggregatedError where
  errSlice : List GoError
  errMap : GoMap GoError
deriving DecidableEq, Repr

/-- Modelled from the spec: `processUnmarshalErrors`, which `UnmarshalCDS` calls, is defined
outside the source files at hand. The spec describes its result as "one aggregated error
that enumerates every named failure (by name) and every anonymous failure (by underlying
cause)"; the model returns that error, carrying both enumerations. -/
def processUnmarshalErrors (errSlice : List GoError) (errMap : GoMap GoError) :
    Option AggregatedError :=
  some ⟨errSlice, errMap⟩

/-- The three local variables of `UnmarshalCDS` that its loop updates. -/
structure DecodeState where
  ret : GoMap (Option ClusterResource)
  errMap : GoMap GoError
  errSlice : List GoError
deriving DecidableEq, Repr

/-- The state before the loop of `UnmarshalCDS`. -/
def DecodeState.init : DecodeState :=
  { ret := GoMap.empty, errMap := GoMap.empty, errSlice := [] }

/-- One iteration of the loop of `UnmarshalCDS`. -/
def UnmarshalCDS.step (x : Externals) (st : DecodeState) (r : AnyMsg) : DecodeState :=
  match unmarshalCluster x r with
  | (name, res, err) =>
    match err with
    | some e =>
      if name = "" then { st with errSlice := st.errSlice ++ [e] }
      else { st with errMap := st.errMap.set name e }
    | none => { st with ret := st.ret.set name res }

/-- The loop of `UnmarshalCDS`, run over the whole batch. -/
def UnmarshalCDS.loop (x : Externals) (rawResources : List AnyMsg) : DecodeState :=
  rawResources.foldl (UnmarshalCDS.step x) DecodeState.init

/-- The function `UnmarshalCDS`: the result map and the error. -/
def UnmarshalCDS (x : Externals) (rawResources : List AnyMsg) :
    GoMap (Option ClusterResource) × Option AggregatedError :=
  let st := UnmarshalCDS.loop x rawResources
  if st.errMap.len = 0 ∧ st.errSlice.length = 0 then (st.ret, none)
  else (st.ret, processUnmarshalErrors st.errSlice st.errMap)

/-! ## `core/manager/bootstrap.go` and `core/manager/option.go` -/

def PodNamespace : String := "POD_NAMESPACE"
def PodName : String := "POD_NAME"
def InstanceIP : String := "INSTANCE_IP"
def IstiodAddr : String := "istiod.istio-system.svc:15010"
def KitexXdsDomain : String := "KITEX_XDS_DOMAIN"
def KitexXdsMetas : String := "KITEX_XDS_METAS"
def IstiodSvrName : String := "istiod.istio-system.svc"
def IstioVersion : String := "ISTIO_VERSION"

/-- Modelled from the spec: the constant `defaultXDSFetchTimeout` is declared outside the
source files at hand. The spec gives it: "`fetchTimeout` defaults to 1 second if zero", and
so does the comment on the field `FetchXDSTimeout`: "default to 1s". A `time.Duration` counts
nanoseconds. -/
def defaultXDSFetchTimeout : Int := 1000000000

/-- The struct `XDSServerConfig`. -/
structure XDSServerConfig where
  SvrName : String
  SvrAddr : String
  XDSAuth : Bool
  NDSNotRequired : Bool
  FetchXDSTimeout : Int
deriving DecidableEq, Repr

/-- The method `XDSServerConfig.GetFetchXDSTimeout`. -/
def XDSServerConfig.GetFetchXDSTimeout (xsc : XDSServerConfig) : Int :=
  if xsc.FetchXDSTimeout = 0 then defaultXDSFetchTimeout else xsc.FetchXDSTimeout

/-- The message `structpb.Value`: the string kind, which the code builds itself, and the
other kinds, which only `protojson.Unmarshal` produces, kept as an uninterpreted code. -/
inductive Value where
  | StringValue (s : String)
  | other (code : Nat)
deriving DecidableEq, Repr

/-- The message `structpb.Struct`. -/
structure Struct where
  Fields : GoMap Value
deriving DecidableEq, Repr

/-- The message `v3core.Node`, restricted to the fields that are set. -/
structure Node where
  Id : String
  Metadata : Struct
deriving DecidableEq, Repr

/-- The struct `BootstrapConfig`. Its field `xdsSvrCfg` points to the caller's config, and
holds here the value of that config when `newBootstrapConfig` returns. -/
structure BootstrapConfig where
  node : Node
  xdsSvrCfg : XDSServerConfig
deriving DecidableEq, Repr

/-- The function `parseMetaEnvs`. The library function `protojson.Unmarshal` into a `Struct`
is the parameter `protojsonUnmarshal`; the warning written to the log is not modelled. -/
def parseMetaEnvs (protojsonUnmarshal : String → Except GoError Struct)
    (envs istioVersion : String) : Struct :=
  let defaultMeta : Struct :=
    { Fields := (GoMap.empty).set IstioVersion (Value.StringValue istioVersion) }
  if envs.length = 0 then defaultMeta
  else
    match protojsonUnmarshal envs with
    | .error _ => defaultMeta
    | .ok pbmeta => pbmeta

/-- The function `nodeId`. -/
def nodeId (podIP podName podNamespace nodeDomain : String) : String :=
  "sidecar~" ++ podIP ++ "~" ++ podName ++ "." ++ podNamespace ++ "~" ++ podNamespace ++ ".svc." ++
    nodeDomain

/-- What a call of `newBootstrapConfig` leaves behind: the caller's config after the call,
the returned pointer (nil on failure) and the returned error. -/
structure BootstrapResult where
  config : XDSServerConfig
  bootstrap : Option BootstrapConfig
  err : Option GoError
deriving DecidableEq, Repr

/-- The function `newBootstrapConfig`. The process environment is the function `getenv`
(`os.Getenv`, which gives the empty string for an unset variable). -/
def newBootstrapConfig (protojsonUnmarshal : String → Except GoError Struct)
    (getenv : String → String) (config : XDSServerConfig) : BootstrapResult :=
  let podNamespace := getenv PodNamespace
  if podNamespace = "" then
    ⟨config, none, some "[XDS] Bootstrap, POD_NAMESPACE is not set in env"⟩
  else
    let podName := getenv PodName
    if podName = "" then
      ⟨config, none, some "[XDS] Bootstrap, POD_NAME is not set in env"⟩
    else
      let podIP := getenv InstanceIP
      if podIP = "" then
        ⟨config, none, some "[XDS] Bootstrap, INSTANCE_IP is not set in env"⟩
      else
        let config : XDSServerConfig :=
          if config.FetchXDSTimeout = 0 then
            { config with FetchXDSTimeout := defaultXDSFetchTimeout }
          else config
        let istioVersion := getenv IstioVersion
        let nodeDomain := getenv KitexXdsDomain
        let nodeDomain := if nodeDomain = "" then "cluster.local" else nodeDomain
        let metaEnvs := getenv KitexXdsMetas
        ⟨config,
          some
            { node :=
                { Id := nodeId podIP podName podNamespace nodeDomain
                  Metadata := parseMetaEnvs protojsonUnmarshal metaEnvs istioVersion }
              xdsSvrCfg := config },
          none⟩

/-- The function `CheckXDSSvrConfig`: the caller's config after the call, and the error. -/
def CheckXDSSvrConfig (cfg : XDSServerConfig) : XDSServerConfig × Option GoError :=
  if cfg.SvrAddr = "" then
    (cfg, some "[XDS] Option: xDS server address should be specified")
  else
    let cfg : XDSServerConfig :=
      if cfg.SvrName = "" then { cfg with SvrName := IstiodSvrName } else cfg
    (cfg, none)

/-! ## Concrete inputs

Stand-ins for the collaborators and a few payloads, on which the definitions above can be
evaluated. -/

/-- A stand-in for the collaborators of `cds.go`. Four byte strings parse as clusters, every
other one is rejected; the load assignment with code `0` fails to decode. -/
def demoExternals : Externals where
  ClusterTypeURL := "type.googleapis.com/envoy.config.cluster.v3.Cluster"
  protoUnmarshal := fun bytes =>
    match bytes with
    | [1] => .ok ⟨"a", Cluster_EDS, Cluster_RING_HASH, some ⟨"svc-a"⟩, none⟩
    | [2] => .ok ⟨"b", Cluster_STATIC, Cluster_ROUND_ROBIN, none, some ⟨7⟩⟩
    | [3] => .ok ⟨"c", Cluster_STRICT_DNS, Cluster_MAGLEV, some ⟨"svc-c"⟩, some ⟨0⟩⟩
    | [4] => .ok ⟨"a", Cluster_LOGICAL_DNS, Cluster_RANDOM, none, none⟩
    | _ => .error "proto: cannot parse invalid wire-format data"
  parseClusterLoadAssignment := fun cla =>
    match cla with
    | none => .ok none
    | some ⟨0⟩ => .error "bad endpoints"
    | some ⟨n⟩ => .ok (some ⟨n⟩)

/-- A payload with the cluster type tag. -/
def demoPayload (bytes : List Nat) : AnyMsg :=
  ⟨"type.googleapis.com/envoy.config.cluster.v3.Cluster", bytes⟩

/-- A payload with the type tag of another resource kind. -/
def demoWrongTag : AnyMsg :=
  ⟨"type.googleapis.com/envoy.config.listener.v3.Listener", [1]⟩

/-- A batch with two successes, one named failure and two anonymous failures. -/
def demoBatch : List AnyMsg :=
  [demoPayload [1], demoPayload [2], demoPayload [9], demoPayload [3], demoWrongTag]

/-- A stand-in for `protojson.Unmarshal`: one document parses, every other one is rejected. -/
def demoProtojson (envs : String) : Except GoError Struct :=
  if envs = "\x7b\"k\":\"v\"\x7d" then .ok ⟨(GoMap.empty).set "k" (Value.StringValue "v")⟩
  else .error "proto: syntax error"

/-- A process environment with the three required variables and nothing else. -/
def demoEnv (name : String) : String :=
  if name = "POD_NAMESPACE" then "ns"
  else if name = "POD_NAME" then "p"
  else if name = "INSTANCE_IP" then "10.0.0.1"
  else ""

/-- A server config with no name and no timeout. -/
def demoConfig : XDSServerConfig :=
  { SvrName := "", SvrAddr := "a", XDSAuth := false, NDSNotRequired := false,
    FetchXDSTimeout := 0 }

/-- The one metadata document that `demoProtojson` parses. -/
def demoMetas : String := "\x7b\"k\":\"v\"\x7d"

/-- A batch of two payloads that both decode to a cluster named `a`, with different contents. -/
def demoSameName : List AnyMsg :=
  [demoPayload [1], demoPayload [4]]

/-- A batch of two payloads that both fail under the name `c`. -/
def demoSameFailure : List AnyMsg :=
  [demoPayload [3], demoPayload [3]]

/-! ## Lemmas on Go maps -/

namespace GoMap

variable {V : Type}

theorem get?_empty (k : String) : (empty : GoMap V).get? k = none := rfl

theorem keys_empty : (empty : GoMap V).keys = [] := rfl

theorem len_empty : (empty : GoMap V).len = 0 := rfl

theorem lookup_filter_ne (l : List (String × V)) (k k' : String) (h : k' ≠ k) :
    (l.filter (fun p => p.1 != k)).lookup k' = l.lookup k' := by
  induction l with
  | nil => rfl
  | cons p l ih =>
    obtain ⟨a, b⟩ := p
    by_cases ha : a = k
    · subst ha
      have h1 : (k' == a) = false := by simpa using h
      simp [List.filter_cons, List.lookup_cons, h1, ih]
    · have h2 : (a != k) = true := by simpa using ha
      simp only [List.filter_cons, h2, if_true, List.lookup_cons, ih]

theorem get?_set_self (m : GoMap V) (k : String) (v : V) : (m.set k v).get? k = some v := by
  simp [get?, set, List.lookup_cons]

theorem get?_set_ne (m : GoMap V) (k k' : String) (v : V) (h : k' ≠ k) :
    (m.set k v).get? k' = m.get? k' := by
  have h1 : (k' == k) = false := by simpa using h
  simp only [get?, set, List.lookup_cons, h1]
  exact lookup_filter_ne m.entries k k' h

theorem mem_keys_set (m : GoMap V) (k k' : String) (v : V) :
    k' ∈ (m.set k v).keys ↔ k' = k ∨ k' ∈ m.keys := by
  simp only [keys, set, List.map_cons, List.mem_cons, List.mem_map, List.mem_filter]
  constructor
  · rintro (h | ⟨p, ⟨hp, _⟩, rfl⟩)
    · exact Or.inl h
    · exact Or.inr ⟨p, hp, rfl⟩
  · rintro (h | ⟨p, hp, rfl⟩)
    · exact Or.inl h
    · by_cases hk : p.1 = k
      · exact Or.inl hk
      · exact Or.inr ⟨p, ⟨hp, by simpa using hk⟩, rfl⟩

theorem len_set_pos (m : GoMap V) (k : String) (v : V) : 0 < (m.set k v).len := by
  simp [len, set]

theorem len_eq_zero_iff (m : GoMap V) : m.len = 0 ↔ m.keys = [] := by
  simp [len, keys]

end GoMap

/-! ## The loop of `UnmarshalCDS` -/

theorem step_success (x : Externals) (st : DecodeState) (r : AnyMsg)
    (h : (unmarshalCluster x r).2.2 = none) :
    UnmarshalCDS.step x st r =
      { st with ret := st.ret.set (unmarshalCluster x r).1 (unmarshalCluster x r).2.1 } := by
  unfold UnmarshalCDS.step
  rcases hr : unmarshalCluster x r with ⟨name, res, err⟩
  rw [hr] at h
  simp only at h
  subst h
  rfl

theorem step_anonymous (x : Externals) (st : DecodeState) (r : AnyMsg) (e : GoError)
    (h : (unmarshalCluster x r).2.2 = some e) (hn : (unmarshalCluster x r).1 = "") :
    UnmarshalCDS.step x st r = { st with errSlice := st.errSlice ++ [e] } := by
  unfold UnmarshalCDS.step
  rcases hr : unmarshalCluster x r with ⟨name, res, err⟩
  rw [hr] at h hn
  simp only at h hn
  subst h hn
  simp

theorem step_named (x : Externals) (st : DecodeState) (r : AnyMsg) (e : GoError)
    (h : (unmarshalCluster x r).2.2 = some e) (hn : (unmarshalCluster x r).1 ≠ "") :
    UnmarshalCDS.step x st r =
      { st with errMap := st.errMap.set (unmarshalCluster x r).1 e } := by
  unfold UnmarshalCDS.step
  rcases hr : unmarshalCluster x r with ⟨name, res, err⟩
  rw [hr] at h hn
  simp only at h hn
  subst h
  simp [hn]

theorem loop_nil (x : Externals) : UnmarshalCDS.loop x [] = DecodeState.init := rfl

theorem loop_concat (x : Externals) (rs : List AnyMsg) (r : AnyMsg) :
    UnmarshalCDS.loop x (rs ++ [r]) = UnmarshalCDS.step x (UnmarshalCDS.loop x rs) r := by
  simp [UnmarshalCDS.loop, List.foldl_append]

theorem UnmarshalCDS_fst (x : Externals) (rs : List AnyMsg) :
    (UnmarshalCDS x rs).1 = (UnmarshalCDS.loop x rs).ret := by
  unfold UnmarshalCDS
  simp only
  split <;> rfl

/-- The three outcomes of one payload, as seen by the loop. -/
theorem step_cases (x : Externals) (st : DecodeState) (r : AnyMsg) :
    ((unmarshalCluster x r).2.2 = none ∧
        UnmarshalCDS.step x st r =
          { st with ret := st.ret.set (unmarshalCluster x r).1 (unmarshalCluster x r).2.1 }) ∨
      (∃ e, (unmarshalCluster x r).2.2 = some e ∧ (unmarshalCluster x r).1 = "" ∧
        UnmarshalCDS.step x st r = { st with errSlice := st.errSlice ++ [e] }) ∨
      (∃ e, (unmarshalCluster x r).2.2 = some e ∧ (unmarshalCluster x r).1 ≠ "" ∧
        UnmarshalCDS.step x st r =
          { st with errMap := st.errMap.set (unmarshalCluster x r).1 e }) := by
  cases he : (unmarshalCluster x r).2.2 with
  | none => exact Or.inl ⟨rfl, step_success x st r he⟩
  | some e =>
    by_cases hn : (unmarshalCluster x r).1 = ""
    · exact Or.inr (Or.inl ⟨e, rfl, hn, step_anonymous x st r e he hn⟩)
    · exact Or.inr (Or.inr ⟨e, rfl, hn, step_named x st r e he hn⟩)

theorem loop_ret_get? (x : Externals) (rs : List AnyMsg) (k : String) :
    (UnmarshalCDS.loop x rs).ret.get? k =
      ((rs.filter (fun r =>
          decide ((unmarshalCluster x r).2.2 = none ∧ (unmarshalCluster x r).1 = k))).getLast?).map
        (fun r => (unmarshalCluster x r).2.1) := by
  induction rs using List.reverseRecOn with
  | nil => rfl
  | append_singleton rs r ih =>
    rw [loop_concat, List.filter_append]
    rcases step_cases x (UnmarshalCDS.loop x rs) r with ⟨he, hs⟩ | ⟨e, he, _, hs⟩ | ⟨e, he, _, hs⟩
    · rw [hs]
      by_cases hk : (unmarshalCluster x r).1 = k
      · simp [he, hk, GoMap.get?_set_self]
      · have hk' : k ≠ (unmarshalCluster x r).1 := fun h => hk h.symm
        simp [he, hk, GoMap.get?_set_ne _ _ _ _ hk', ih]
    · rw [hs]
      simp [he, ih]
    · rw [hs]
      simp [he, ih]

theorem loop_ret_keys (x : Externals) (rs : List AnyMsg) (k : String) :
    k ∈ (UnmarshalCDS.loop x rs).ret.keys ↔
      ∃ r ∈ rs, (unmarshalCluster x r).2.2 = none ∧ (unmarshalCluster x r).1 = k := by
  induction rs using List.reverseRecOn with
  | nil => simp [loop_nil, DecodeState.init, GoMap.keys_empty]
  | append_singleton rs r ih =>
    rw [loop_concat]
    rcases step_cases x (UnmarshalCDS.loop x rs) r with ⟨he, hs⟩ | ⟨e, he, _, hs⟩ | ⟨e, he, _, hs⟩
    · rw [hs]
      simp only [GoMap.mem_keys_set, ih, List.mem_append, List.mem_singleton]
      constructor
      · rintro (h | ⟨r', hr', h⟩)
        · exact ⟨r, Or.inr rfl, he, h.symm⟩
        · exact ⟨r', Or.inl hr', h⟩
      · rintro ⟨r', hr' | rfl, h1, h2⟩
        · exact Or.inr ⟨r', hr', h1, h2⟩
        · exact Or.inl h2.symm
    · rw [hs]
      simp only [ih, List.mem_append, List.mem_singleton]
      constructor
      · rintro ⟨r', hr', h⟩
        exact ⟨r', Or.inl hr', h⟩
      · rintro ⟨r', hr' | rfl, h1, h2⟩
        · exact ⟨r', hr', h1, h2⟩
        · rw [he] at h1; cases h1
    · rw [hs]
      simp only [ih, List.mem_append, List.mem_singleton]
      constructor
      · rintro ⟨r', hr', h⟩
        exact ⟨r', Or.inl hr', h⟩
      · rintro ⟨r', hr' | rfl, h1, h2⟩
        · exact ⟨r', hr', h1, h2⟩
        · rw [he] at h1; cases h1

theorem loop_errSlice (x : Externals) (rs : List AnyMsg) :
    (UnmarshalCDS.loop x rs).errSlice =
      rs.filterMap (fun r =>
        if (unmarshalCluster x r).1 = "" then (unmarshalCluster x r).2.2 else none) := by
  induction rs using List.reverseRecOn with
  | nil => rfl
  | append_singleton rs r ih =>
    rw [loop_concat, List.filterMap_append]
    rcases step_cases x (UnmarshalCDS.loop x rs) r with ⟨he, hs⟩ | ⟨e, he, hn, hs⟩ | ⟨e, he, hn, hs⟩
    · rw [hs]
      simp [he, ih]
    · rw [hs]
      simp [he, hn, ih]
    · rw [hs]
      simp [hn, ih]

theorem loop_errMap_keys (x : Externals) (rs : List AnyMsg) (k : String) :
    k ∈ (UnmarshalCDS.loop x rs).errMap.keys ↔
      k ≠ "" ∧ ∃ r ∈ rs, (unmarshalCluster x r).2.2 ≠ none ∧ (unmarshalCluster x r).1 = k := by
  induction rs using List.reverseRecOn with
  | nil => simp [loop_nil, DecodeState.init, GoMap.keys_empty]
  | append_singleton rs r ih =>
    rw [loop_concat]
    rcases step_cases x (UnmarshalCDS.loop x rs) r with ⟨he, hs⟩ | ⟨e, he, hn, hs⟩ | ⟨e, he, hn, hs⟩
    · rw [hs]
      simp only [ih, List.mem_append, List.mem_singleton]
      constructor
      · rintro ⟨hk, r', hr', h⟩
        exact ⟨hk, r', Or.inl hr', h⟩
      · rintro ⟨hk, r', hr' | rfl, h1, h2⟩
        · exact ⟨hk, r', hr', h1, h2⟩
        · exact absurd he h1
    · rw [hs]
      simp only [ih, List.mem_append, List.mem_singleton]
      constructor
      · rintro ⟨hk, r', hr', h⟩
        exact ⟨hk, r', Or.inl hr', h⟩
      · rintro ⟨hk, r', hr' | rfl, h1, h2⟩
        · exact ⟨hk, r', hr', h1, h2⟩
        · exact absurd (h2.symm.trans hn) hk
    · rw [hs]
      simp only [GoMap.mem_keys_set, ih, List.mem_append, List.mem_singleton]
      constructor
      · rintro (h | ⟨hk, r', hr', h⟩)
        · refine ⟨h ▸ hn, r, Or.inr rfl, ?_, h.symm⟩
          rw [he]; simp
        · exact ⟨hk, r', Or.inl hr', h⟩
      · rintro ⟨hk, r', hr' | rfl, h1, h2⟩
        · exact Or.inr ⟨hk, r', hr', h1, h2⟩
        · exact Or.inl h2.symm

theorem loop_errMap_get? (x : Externals) (rs : List AnyMsg) (k : String) (hk : k ≠ "") :
    (UnmarshalCDS.loop x rs).errMap.get? k =
      ((rs.filter (fun r =>
          decide ((unmarshalCluster x r).2.2 ≠ none ∧ (unmarshalCluster x r).1 = k))).getLast?).bind
        (fun r => (unmarshalCluster x r).2.2) := by
  induction rs using List.reverseRecOn with
  | nil => rfl
  | append_singleton rs r ih =>
    rw [loop_concat, List.filter_append]
    rcases step_cases x (UnmarshalCDS.loop x rs) r with ⟨he, hs⟩ | ⟨e, he, hn, hs⟩ | ⟨e, he, hn, hs⟩
    · rw [hs]
      simp [he, ih]
    · rw [hs]
      have hne : ¬ (unmarshalCluster x r).1 = k := fun h => hk (h.symm.trans hn)
      simp [hne, ih]
    · rw [hs]
      by_cases hkn : (unmarshalCluster x r).1 = k
      · simp [he, hkn, GoMap.get?_set_self]
      · have hk' : k ≠ (unmarshalCluster x r).1 := fun h => hkn h.symm
        simp [hkn, GoMap.get?_set_ne _ _ _ _ hk', ih]

theorem loop_no_failure_iff (x : Externals) (rs : List AnyMsg) :
    ((UnmarshalCDS.loop x rs).errMap.len = 0 ∧ (UnmarshalCDS.loop x rs).errSlice.length = 0) ↔
      ∀ r ∈ rs, (unmarshalCluster x r).2.2 = none := by
  constructor
  · rintro ⟨hm, hsl⟩ r hr
    by_contra hne
    by_cases hn : (unmarshalCluster x r).1 = ""
    · obtain ⟨e, he⟩ := Option.ne_none_iff_exists'.mp hne
      have hmem : e ∈ (UnmarshalCDS.loop x rs).errSlice := by
        rw [loop_errSlice, List.mem_filterMap]
        exact ⟨r, hr, by simp [hn, he]⟩
      rw [List.length_eq_zero] at hsl
      rw [hsl] at hmem
      cases hmem
    · have hmem : (unmarshalCluster x r).1 ∈ (UnmarshalCDS.loop x rs).errMap.keys :=
        (loop_errMap_keys x rs _).mpr ⟨hn, r, hr, hne, rfl⟩
      rw [(GoMap.len_eq_zero_iff _).mp hm] at hmem
      cases hmem
  · intro h
    constructor
    · rw [GoMap.len_eq_zero_iff, List.eq_nil_iff_forall_not_mem]
      intro k hk
      obtain ⟨_, r, hr, hne, _⟩ := (loop_errMap_keys x rs k).mp hk
      exact hne (h r hr)
    · rw [List.length_eq_zero, loop_errSlice, List.filterMap_eq_nil_iff]
      intro r hr
      simp [h r hr]

theorem UnmarshalCDS_snd (x : Externals) (rs : List AnyMsg) :
    (UnmarshalCDS x rs).2 =
      (if (UnmarshalCDS.loop x rs).errMap.len = 0 ∧ (UnmarshalCDS.loop x rs).errSlice.length = 0
        then none
        else processUnmarshalErrors (UnmarshalCDS.loop x rs).errSlice
          (UnmarshalCDS.loop x rs).errMap) := by
  unfold UnmarshalCDS
  simp only
  split <;> rfl

theorem UnmarshalCDS_snd_eq_none_iff (x : Externals) (rs : List AnyMsg) :
    (UnmarshalCDS x rs).2 = none ↔ ∀ r ∈ rs, (unmarshalCluster x r).2.2 = none := by
  rw [UnmarshalCDS_snd, ← loop_no_failure_iff]
  by_cases h : (UnmarshalCDS.loop x rs).errMap.len = 0 ∧
      (UnmarshalCDS.loop x rs).errSlice.length = 0
  · simp [h]
  · simp [h, processUnmarshalErrors]

/-! ## Single payloads -/

theorem unmarshalCluster_wrong_tag (x : Externals) (r : AnyMsg)
    (h : r.TypeUrl ≠ x.ClusterTypeURL) :
    unmarshalCluster x r =
      ("", none, some ("invalid cluster resource type: " ++ r.TypeUrl)) := by
  unfold unmarshalCluster
  rw [if_pos h]

theorem unmarshalCluster_malformed (x : Externals) (r : AnyMsg) (err : GoError)
    (ht : r.TypeUrl = x.ClusterTypeURL) (hp : x.protoUnmarshal r.Value = .error err) :
    unmarshalCluster x r = ("", none, some ("unmarshal cluster failed: " ++ err)) := by
  unfold unmarshalCluster
  rw [if_neg (not_not.mpr ht), hp]

theorem unmarshalCluster_inline_error (x : Externals) (r : AnyMsg) (c : Cluster)
    (err : GoError) (ht : r.TypeUrl = x.ClusterTypeURL) (hp : x.protoUnmarshal r.Value = .ok c)
    (he : x.parseClusterLoadAssignment c.GetLoadAssignment = .error err) :
    unmarshalCluster x r = (c.Name, none, some err) := by
  unfold unmarshalCluster
  rw [if_neg (not_not.mpr ht), hp]
  simp only [he]

theorem unmarshalCluster_ok (x : Externals) (r : AnyMsg) (c : Cluster)
    (inl : Option EndpointsResource) (ht : r.TypeUrl = x.ClusterTypeURL)
    (hp : x.protoUnmarshal r.Value = .ok c)
    (he : x.parseClusterLoadAssignment c.GetLoadAssignment = .ok inl) :
    unmarshalCluster x r =
      (c.Name,
        some
          { DiscoveryType := convertDiscoveryType c.GetType
            LbPolicy := convertLbPolicy c.GetLbPolicy
            EndpointName := if c.GetServiceName ≠ "" then c.GetServiceName else c.Name
            InlineEndpoints := inl },
        none) := by
  unfold unmarshalCluster
  rw [if_neg (not_not.mpr ht), hp]
  simp only [he]
  by_cases hs : c.GetServiceName = "" <;> simp [hs]

theorem mem_errSlice_of_anonymous (x : Externals) (rs : List AnyMsg) (r : AnyMsg) (e : GoError)
    (hr : r ∈ rs) (he : (unmarshalCluster x r).2.2 = some e)
    (hn : (unmarshalCluster x r).1 = "") : e ∈ (UnmarshalCDS.loop x rs).errSlice := by
  rw [loop_errSlice, List.mem_filterMap]
  exact ⟨r, hr, by simp [hn, he]⟩

/-! ## The batch decoder `UnmarshalCDS` -/

/-- C1: whatever fails elsewhere in the batch, the map returned by `UnmarshalCDS` has as keys
exactly the names of the payloads that `unmarshalCluster` decodes without error, and under a
name it holds the resource decoded from the last such payload of that name in input order.
The statement is about the first component of the result, which is returned with a nil error
and with a non-nil error alike. -/
theorem UnmarshalCDS_keeps_every_success (x : Externals) (rs : List AnyMsg) (k : String) :
    (k ∈ (UnmarshalCDS x rs).1.keys ↔
        ∃ r ∈ rs, (unmarshalCluster x r).2.2 = none ∧ (unmarshalCluster x r).1 = k) ∧
      (UnmarshalCDS x rs).1.get? k =
        ((rs.filter (fun r =>
            decide ((unmarshalCluster x r).2.2 = none ∧ (unmarshalCluster x r).1 = k))).getLast?).map
          (fun r => (unmarshalCluster x r).2.1) := by
  rw [UnmarshalCDS_fst]
  exact ⟨loop_ret_keys x rs k, loop_ret_get? x rs k⟩

/-- C2: `UnmarshalCDS` returns a nil error exactly when every payload of the batch is decoded
by `unmarshalCluster` without error; in that case the result is the map with a nil error,
taken from the branch that does not call `processUnmarshalErrors`, and otherwise the error is
the one `processUnmarshalErrors` builds. The empty batch yields the empty map and a nil
error. -/
theorem UnmarshalCDS_nil_error_iff (x : Externals) (rs : List AnyMsg) :
    ((UnmarshalCDS x rs).2 = none ↔ ∀ r ∈ rs, (unmarshalCluster x r).2.2 = none) ∧
      (UnmarshalCDS x rs).2 =
        (if (UnmarshalCDS.loop x rs).errMap.len = 0 ∧ (UnmarshalCDS.loop x rs).errSlice.length = 0
          then none
          else processUnmarshalErrors (UnmarshalCDS.loop x rs).errSlice
            (UnmarshalCDS.loop x rs).errMap) ∧
      UnmarshalCDS x [] = (GoMap.empty, none) := by
  exact ⟨UnmarshalCDS_snd_eq_none_iff x rs, UnmarshalCDS_snd x rs, rfl⟩

/-- C3: after the loop of `UnmarshalCDS`, the anonymous-failure list `errSlice` is, in input
order, the list of the errors of the failing payloads for which `unmarshalCluster` returned
the empty name, and the keys of the named-failure map `errMap` are exactly the non-empty
names that `unmarshalCluster` returned for failing payloads; under such a name the map holds
the error of the last failing payload of that name. A payload decoded without error has no
part in either. Whenever some payload fails, these two are what `processUnmarshalErrors`
receives. -/
theorem UnmarshalCDS_failure_classes (x : Externals) (rs : List AnyMsg) (k : String) :
    (UnmarshalCDS.loop x rs).errSlice =
        rs.filterMap (fun r =>
          if (unmarshalCluster x r).1 = "" then (unmarshalCluster x r).2.2 else none) ∧
      (k ∈ (UnmarshalCDS.loop x rs).errMap.keys ↔
        k ≠ "" ∧ ∃ r ∈ rs, (unmarshalCluster x r).2.2 ≠ none ∧ (unmarshalCluster x r).1 = k) ∧
      (k = "" ∨ (UnmarshalCDS.loop x rs).errMap.get? k =
        ((rs.filter (fun r =>
            decide ((unmarshalCluster x r).2.2 ≠ none ∧ (unmarshalCluster x r).1 = k))).getLast?).bind
          (fun r => (unmarshalCluster x r).2.2)) ∧
      ((∀ r ∈ rs, (unmarshalCluster x r).2.2 = none) ∨
        (UnmarshalCDS x rs).2 =
          processUnmarshalErrors (UnmarshalCDS.loop x rs).errSlice
            (UnmarshalCDS.loop x rs).errMap) := by
  refine ⟨loop_errSlice x rs, loop_errMap_keys x rs k, ?_, ?_⟩
  · by_cases hk : k = ""
    · exact Or.inl hk
    · exact Or.inr (loop_errMap_get? x rs k hk)
  · by_cases h : (UnmarshalCDS.loop x rs).errMap.len = 0 ∧
        (UnmarshalCDS.loop x rs).errSlice.length = 0
    · exact Or.inl ((loop_no_failure_iff x rs).mp h)
    · exact Or.inr (by rw [UnmarshalCDS_snd, if_neg h])

/-! ## The enumeration fallbacks -/

/-- C4: `convertDiscoveryType` sends `EDS`, `LOGICAL_DNS` and `STATIC` to the members of the
same name, sends `STRICT_DNS`, `ORIGINAL_DST` and every other wire value to
`ClusterDiscoveryTypeEDS`, and always returns one of the three members. -/
theorem convertDiscoveryType_fallback (t : Cluster_DiscoveryType) :
    convertDiscoveryType Cluster_EDS = ClusterDiscoveryTypeEDS ∧
      convertDiscoveryType Cluster_LOGICAL_DNS = ClusterDiscoveryTypeLogicalDNS ∧
      convertDiscoveryType Cluster_STATIC = ClusterDiscoveryTypeStatic ∧
      convertDiscoveryType Cluster_STRICT_DNS = ClusterDiscoveryTypeEDS ∧
      convertDiscoveryType Cluster_ORIGINAL_DST = ClusterDiscoveryTypeEDS ∧
      (t = Cluster_EDS ∨ t = Cluster_LOGICAL_DNS ∨ t = Cluster_STATIC ∨
        convertDiscoveryType t = ClusterDiscoveryTypeEDS) ∧
      (convertDiscoveryType t = ClusterDiscoveryTypeEDS ∨
        convertDiscoveryType t = ClusterDiscoveryTypeLogicalDNS ∨
        convertDiscoveryType t = ClusterDiscoveryTypeStatic) := by
  refine ⟨by decide, by decide, by decide, by decide, by decide, ?_, ?_⟩
  · by_cases h1 : t = Cluster_EDS
    · exact Or.inl h1
    · by_cases h2 : t = Cluster_LOGICAL_DNS
      · exact Or.inr (Or.inl h2)
      · by_cases h3 : t = Cluster_STATIC
        · exact Or.inr (Or.inr (Or.inl h3))
        · exact Or.inr (Or.inr (Or.inr (by simp [convertDiscoveryType, h1, h2, h3])))
  · unfold convertDiscoveryType
    split
    · exact Or.inl rfl
    · split
      · exact Or.inr (Or.inl rfl)
      · split
        · exact Or.inr (Or.inr rfl)
        · exact Or.inl rfl

/-- C5: `convertLbPolicy` sends `ROUND_ROBIN` and `RING_HASH` to the members of the same
name, sends `LEAST_REQUEST`, `RANDOM`, `MAGLEV` and every other wire value to
`ClusterLbRoundRobin`, and always returns one of the two members. -/
theorem convertLbPolicy_fallback (lb : Cluster_LbPolicy) :
    convertLbPolicy Cluster_ROUND_ROBIN = ClusterLbRoundRobin ∧
      convertLbPolicy Cluster_RING_HASH = ClusterLbRingHash ∧
      convertLbPolicy Cluster_LEAST_REQUEST = ClusterLbRoundRobin ∧
      convertLbPolicy Cluster_RANDOM = ClusterLbRoundRobin ∧
      convertLbPolicy Cluster_MAGLEV = ClusterLbRoundRobin ∧
      (lb = Cluster_RING_HASH ∨ convertLbPolicy lb = ClusterLbRoundRobin) ∧
      (convertLbPolicy lb = ClusterLbRoundRobin ∨ convertLbPolicy lb = ClusterLbRingHash) := by
  refine ⟨by decide, by decide, by decide, by decide, by decide, ?_, ?_⟩
  · by_cases h2 : lb = Cluster_RING_HASH
    · exact Or.inl h2
    · exact Or.inr (by simp [convertLbPolicy, h2])
  · unfold convertLbPolicy
    split
    · exact Or.inl rfl
    · split
      · exact Or.inr rfl
      · exact Or.inl rfl

/-! ## The single-payload decoder `unmarshalCluster` -/

/-- C6: when `unmarshalCluster` decodes a payload without error, the bytes parse as a wire
cluster, the name returned first is that cluster's own name, and the `EndpointName` of the
returned resource is the EDS service name of the cluster when that is non-empty and the
cluster's own name otherwise. -/
theorem unmarshalCluster_endpoint_name (x : Externals) (r : AnyMsg)
    (h : (unmarshalCluster x r).2.2 = none) :
    ∃ c res, x.protoUnmarshal r.Value = .ok c ∧
      (unmarshalCluster x r).1 = c.Name ∧
      (unmarshalCluster x r).2.1 = some res ∧
      res.EndpointName = (if c.GetServiceName ≠ "" then c.GetServiceName else c.Name) := by
  by_cases ht : r.TypeUrl = x.ClusterTypeURL
  · cases hp : x.protoUnmarshal r.Value with
    | error err =>
      rw [unmarshalCluster_malformed x r err ht hp] at h
      cases h
    | ok c =>
      cases he : x.parseClusterLoadAssignment c.GetLoadAssignment with
      | error err =>
        rw [unmarshalCluster_inline_error x r c err ht hp he] at h
        cases h
      | ok inl =>
        rw [unmarshalCluster_ok x r c inl ht hp he]
        exact ⟨c, _, rfl, rfl, rfl, rfl⟩
  · rw [unmarshalCluster_wrong_tag x r ht] at h
    cases h

/-- C6 at a payload that carries both its own name `a` and the service name `svc-a`. -/
theorem unmarshalCluster_endpoint_name_witness :
    (unmarshalCluster demoExternals (demoPayload [1])).2.2 = none ∧
      ∃ c res, demoExternals.protoUnmarshal (demoPayload [1]).Value = .ok c ∧
        (unmarshalCluster demoExternals (demoPayload [1])).1 = c.Name ∧
        (unmarshalCluster demoExternals (demoPayload [1])).2.1 = some res ∧
        res.EndpointName = (if c.GetServiceName ≠ "" then c.GetServiceName else c.Name) :=
  ⟨by decide, unmarshalCluster_endpoint_name demoExternals (demoPayload [1]) (by decide)⟩

/-- C7: a payload whose type tag is not `ClusterTypeURL`, whatever its bytes, and a payload
whose bytes do not parse as a wire cluster, make `unmarshalCluster` return the empty name, no
resource and an error. The loop of `UnmarshalCDS` then only appends that error to the
anonymous-failure list, leaving the result map and the named-failure map as they were, and a
batch containing the payload ends with the error in that list and with a non-nil error. -/
theorem unmarshalCluster_anonymous_failure (x : Externals) (r : AnyMsg)
    (h : r.TypeUrl ≠ x.ClusterTypeURL ∨ ∃ err, x.protoUnmarshal r.Value = .error err) :
    (unmarshalCluster x r).1 = "" ∧ (unmarshalCluster x r).2.1 = none ∧
      ∃ e, (unmarshalCluster x r).2.2 = some e ∧
        (∀ st, UnmarshalCDS.step x st r = { st with errSlice := st.errSlice ++ [e] }) ∧
        (∀ rs, r ∈ rs →
          e ∈ (UnmarshalCDS.loop x rs).errSlice ∧ (UnmarshalCDS x rs).2 ≠ none) := by
  have key : ∃ e, unmarshalCluster x r = ("", none, some e) := by
    by_cases ht : r.TypeUrl = x.ClusterTypeURL
    · rcases h with h | ⟨err, hp⟩
      · exact absurd ht h
      · exact ⟨_, unmarshalCluster_malformed x r err ht hp⟩
    · exact ⟨_, unmarshalCluster_wrong_tag x r ht⟩
  obtain ⟨e, he⟩ := key
  have h1 : (unmarshalCluster x r).1 = "" := by rw [he]
  have h3 : (unmarshalCluster x r).2.2 = some e := by rw [he]
  refine ⟨h1, by rw [he], e, h3, fun st => step_anonymous x st r e h3 h1, ?_⟩
  intro rs hr
  refine ⟨mem_errSlice_of_anonymous x rs r e hr h3 h1, ?_⟩
  intro hnone
  have := (UnmarshalCDS_snd_eq_none_iff x rs).mp hnone r hr
  rw [h3] at this
  cases this

/-- C7 at a payload carrying the type tag of a listener. -/
theorem unmarshalCluster_anonymous_failure_witness :
    (demoWrongTag.TypeUrl ≠ demoExternals.ClusterTypeURL ∨
        ∃ err, demoExternals.protoUnmarshal demoWrongTag.Value = .error err) ∧
      (unmarshalCluster demoExternals demoWrongTag).1 = "" ∧
      (unmarshalCluster demoExternals demoWrongTag).2.1 = none ∧
      ∃ e, (unmarshalCluster demoExternals demoWrongTag).2.2 = some e ∧
        (∀ st, UnmarshalCDS.step demoExternals st demoWrongTag =
          { st with errSlice := st.errSlice ++ [e] }) ∧
        (∀ rs, demoWrongTag ∈ rs →
          e ∈ (UnmarshalCDS.loop demoExternals rs).errSlice ∧
            (UnmarshalCDS demoExternals rs).2 ≠ none) :=
  ⟨Or.inl (by decide),
    unmarshalCluster_anonymous_failure demoExternals demoWrongTag (Or.inl (by decide))⟩

/-- C8: for a payload with the right type tag whose bytes parse as a cluster `c` and whose
inline endpoint data `parseClusterLoadAssignment` rejects with `err`, `unmarshalCluster`
returns the cluster's own name, no resource and `err`. When that name is non-empty, the loop
of `UnmarshalCDS` only stores `err` in the named-failure map under that name, leaving the
result map and the anonymous-failure list as they were, and a batch containing the payload
ends with that name among the keys of the named-failure map. -/
theorem unmarshalCluster_inline_failure (x : Externals) (r : AnyMsg) (c : Cluster)
    (err : GoError) (ht : r.TypeUrl = x.ClusterTypeURL) (hp : x.protoUnmarshal r.Value = .ok c)
    (he : x.parseClusterLoadAssignment c.GetLoadAssignment = .error err) :
    unmarshalCluster x r = (c.Name, none, some err) ∧
      (c.Name = "" ∨
        ((∀ st, UnmarshalCDS.step x st r = { st with errMap := st.errMap.set c.Name err }) ∧
          (∀ rs, r ∈ rs → c.Name ∈ (UnmarshalCDS.loop x rs).errMap.keys))) := by
  have hu := unmarshalCluster_inline_error x r c err ht hp he
  refine ⟨hu, ?_⟩
  by_cases hn : c.Name = ""
  · exact Or.inl hn
  · have h1 : (unmarshalCluster x r).1 = c.Name := by rw [hu]
    have h3 : (unmarshalCluster x r).2.2 = some err := by rw [hu]
    refine Or.inr ⟨fun st => ?_, fun rs hr => ?_⟩
    · have := step_named x st r err h3 (by rw [h1]; exact hn)
      rw [h1] at this
      exact this
    · refine (loop_errMap_keys x rs c.Name).mpr ⟨hn, r, hr, ?_, h1⟩
      rw [h3]
      simp

/-- C8 at a payload named `c` with service name `svc-c` whose load assignment is rejected. -/
theorem unmarshalCluster_inline_failure_witness :
    unmarshalCluster demoExternals (demoPayload [3]) = ("c", none, some "bad endpoints") ∧
      (∀ st, UnmarshalCDS.step demoExternals st (demoPayload [3]) =
        { st with errMap := st.errMap.set "c" "bad endpoints" }) ∧
      "c" ∈ (UnmarshalCDS.loop demoExternals demoBatch).errMap.keys ∧
      (UnmarshalCDS demoExternals demoBatch).1.get? "c" = none := by
  have h := unmarshalCluster_inline_failure demoExternals (demoPayload [3])
    ⟨"c", Cluster_STRICT_DNS, Cluster_MAGLEV, some ⟨"svc-c"⟩, some ⟨0⟩⟩ "bad endpoints"
    (by decide) rfl rfl
  refine ⟨h.1, ?_, ?_, by decide⟩
  · rcases h.2 with h0 | h1
    · exact absurd h0 (by decide)
    · exact h1.1
  · rcases h.2 with h0 | h1
    · exact absurd h0 (by decide)
    · exact h1.2 demoBatch (by decide)

/-! ## The bootstrap identity -/

/-- C9: when the namespace, the pod name and the instance address are all non-empty,
`newBootstrapConfig` returns a config whose node id is `sidecar~`, the address, `~`, the pod
name, `.`, the namespace, `~`, the namespace, `.svc.` and the domain, the domain being the
value of `KITEX_XDS_DOMAIN` when that is non-empty and `cluster.local` otherwise. -/
theorem newBootstrapConfig_node_id (pj : String → Except GoError Struct)
    (getenv : String → String) (config : XDSServerConfig)
    (hns : getenv PodNamespace ≠ "") (hpod : getenv PodName ≠ "")
    (hip : getenv InstanceIP ≠ "") :
    ∃ bc, (newBootstrapConfig pj getenv config).bootstrap = some bc ∧
      bc.node.Id =
        "sidecar~" ++ getenv InstanceIP ++ "~" ++ getenv PodName ++ "." ++
          getenv PodNamespace ++ "~" ++ getenv PodNamespace ++ ".svc." ++
          (if getenv KitexXdsDomain = "" then "cluster.local" else getenv KitexXdsDomain) := by
  unfold newBootstrapConfig
  simp only [hns, hpod, hip, if_false]
  exact ⟨_, rfl, rfl⟩

/-- C9 at namespace `ns`, pod `p`, address `10.0.0.1` and no domain. -/
theorem newBootstrapConfig_node_id_witness :
    ∃ bc, (newBootstrapConfig demoProtojson demoEnv demoConfig).bootstrap = some bc ∧
      bc.node.Id = "sidecar~10.0.0.1~p.ns~ns.svc.cluster.local" := by
  obtain ⟨bc, hbc, hid⟩ :=
    newBootstrapConfig_node_id demoProtojson demoEnv demoConfig
      (by decide) (by decide) (by decide)
  exact ⟨bc, hbc, hid.trans (by decide)⟩

/-- C10: `newBootstrapConfig` returns an error exactly when the namespace, the pod name or
the instance address is empty, whatever the domain, the metadata, the version and the config
are, and it returns an error exactly when it returns no `BootstrapConfig`. -/
theorem newBootstrapConfig_fails_iff (pj : String → Except GoError Struct)
    (getenv : String → String) (config : XDSServerConfig) :
    ((newBootstrapConfig pj getenv config).err ≠ none ↔
        (getenv PodNamespace = "" ∨ getenv PodName = "" ∨ getenv InstanceIP = "")) ∧
      ((newBootstrapConfig pj getenv config).err ≠ none ↔
        (newBootstrapConfig pj getenv config).bootstrap = none) := by
  unfold newBootstrapConfig
  by_cases hns : getenv PodNamespace = ""
  · simp [hns]
  · by_cases hpod : getenv PodName = ""
    · simp [hns, hpod]
    · by_cases hip : getenv InstanceIP = ""
      · simp [hns, hpod, hip]
      · simp [hns, hpod, hip]

/-! ## Node metadata -/

theorem string_length_zero_iff (s : String) : s.length = 0 ↔ s = "" := by
  constructor
  · intro h
    cases s with
    | mk l =>
      have hl : l = [] := List.length_eq_zero.mp h
      subst hl
      rfl
  · rintro rfl
    rfl

theorem parseMetaEnvs_empty (pj : String → Except GoError Struct) (v : String) :
    parseMetaEnvs pj "" v = ⟨(GoMap.empty).set IstioVersion (Value.StringValue v)⟩ := by
  unfold parseMetaEnvs
  simp

theorem parseMetaEnvs_error (pj : String → Except GoError Struct) (envs v : String)
    (err : GoError) (h : pj envs = .error err) :
    parseMetaEnvs pj envs v = ⟨(GoMap.empty).set IstioVersion (Value.StringValue v)⟩ := by
  unfold parseMetaEnvs
  simp only [h]
  split <;> rfl

theorem parseMetaEnvs_ok (pj : String → Except GoError Struct) (envs v : String)
    (pbmeta : Struct) (hne : envs ≠ "") (h : pj envs = .ok pbmeta) :
    parseMetaEnvs pj envs v = pbmeta := by
  unfold parseMetaEnvs
  have hlen : ¬ envs.length = 0 := fun h0 => hne ((string_length_zero_iff envs).mp h0)
  simp only [h, if_neg hlen]

theorem newBootstrapConfig_err_eq (pj pj' : String → Except GoError Struct)
    (getenv getenv' : String → String) (config config' : XDSServerConfig)
    (hns : getenv PodNamespace = getenv' PodNamespace) (hpod : getenv PodName = getenv' PodName)
    (hip : getenv InstanceIP = getenv' InstanceIP) :
    (newBootstrapConfig pj getenv config).err = (newBootstrapConfig pj' getenv' config').err := by
  unfold newBootstrapConfig
  simp only [← hns, ← hpod, ← hip]
  by_cases h1 : getenv PodNamespace = ""
  · simp [h1]
  · by_cases h2 : getenv PodName = ""
    · simp [h1, h2]
    · by_cases h3 : getenv InstanceIP = ""
      · simp [h1, h2, h3]
      · simp [h1, h2, h3]

/-- C11: for every version string and every metadata string that is empty or that
`protojson.Unmarshal` rejects, `parseMetaEnvs` returns the default metadata, whose only key is
`ISTIO_VERSION` and whose value there is the version string. `parseMetaEnvs` is a total
function with no error result, and whether `newBootstrapConfig` fails depends on nothing but
the three required variables, so not on the metadata or on how it parses. -/
theorem parseMetaEnvs_default (pj : String → Except GoError Struct) (envs v : String)
    (h : envs = "" ∨ ∃ err, pj envs = .error err) :
    parseMetaEnvs pj envs v = ⟨(GoMap.empty).set IstioVersion (Value.StringValue v)⟩ ∧
      (parseMetaEnvs pj envs v).Fields.keys = ["ISTIO_VERSION"] ∧
      (parseMetaEnvs pj envs v).Fields.get? "ISTIO_VERSION" = some (Value.StringValue v) ∧
      (∀ (pj' : String → Except GoError Struct) (getenv getenv' : String → String)
        (config : XDSServerConfig),
        getenv PodNamespace = getenv' PodNamespace → getenv PodName = getenv' PodName →
        getenv InstanceIP = getenv' InstanceIP →
        (newBootstrapConfig pj getenv config).err =
          (newBootstrapConfig pj' getenv' config).err) := by
  have hd : parseMetaEnvs pj envs v =
      ⟨(GoMap.empty).set IstioVersion (Value.StringValue v)⟩ := by
    rcases h with rfl | ⟨err, he⟩
    · exact parseMetaEnvs_empty pj v
    · exact parseMetaEnvs_error pj envs v err he
  refine ⟨hd, ?_, ?_, ?_⟩
  · rw [hd]; rfl
  · rw [hd]
    exact GoMap.get?_set_self _ _ _
  · intro pj' getenv getenv' config hns hpod hip
    exact newBootstrapConfig_err_eq pj pj' getenv getenv' config config hns hpod hip

/-- C11 at a metadata string that `demoProtojson` rejects. -/
theorem parseMetaEnvs_default_witness :
    (parseMetaEnvs demoProtojson "not json" "1.16").Fields.keys = ["ISTIO_VERSION"] ∧
      (parseMetaEnvs demoProtojson "not json" "1.16").Fields.get? "ISTIO_VERSION" =
        some (Value.StringValue "1.16") :=
  let h := parseMetaEnvs_default demoProtojson "not json" "1.16"
    (Or.inr ⟨"proto: syntax error", rfl⟩)
  ⟨h.2.1, h.2.2.1⟩

/-- C14, as stated, fails: a metadata document that parses is returned as parsed, and the
version string is not put under `ISTIO_VERSION`. -/
theorem parseMetaEnvs_parsed_lacks_version :
    (parseMetaEnvs demoProtojson demoMetas "1.16").Fields.get? "ISTIO_VERSION" = none ∧
      (parseMetaEnvs demoProtojson demoMetas "1.16").Fields.get? "k" =
        some (Value.StringValue "v") := by
  decide

/-- C14, amended: the metadata produced by `parseMetaEnvs` carries the version string under
`ISTIO_VERSION` when the metadata string is empty or is rejected by `protojson.Unmarshal`;
when the string is non-empty and parses, the result is the parsed document itself, so it has
the key `ISTIO_VERSION` only if the document has it. -/
theorem parseMetaEnvs_version_or_parsed (pj : String → Except GoError Struct)
    (envs v : String) :
    ((envs = "" ∨ ∃ err, pj envs = .error err) ∧
        (parseMetaEnvs pj envs v).Fields.get? IstioVersion = some (Value.StringValue v)) ∨
      (envs ≠ "" ∧ ∃ pbmeta, pj envs = .ok pbmeta ∧ parseMetaEnvs pj envs v = pbmeta) := by
  by_cases hne : envs = ""
  · subst hne
    refine Or.inl ⟨Or.inl rfl, ?_⟩
    rw [parseMetaEnvs_empty]
    exact GoMap.get?_set_self _ _ _
  · cases hp : pj envs with
    | error err =>
      refine Or.inl ⟨Or.inr ⟨err, rfl⟩, ?_⟩
      rw [parseMetaEnvs_error pj envs v err hp]
      exact GoMap.get?_set_self _ _ _
    | ok pbmeta =>
      exact Or.inr ⟨hne, pbmeta, rfl, parseMetaEnvs_ok pj envs v pbmeta hne hp⟩

/-! ## The server config -/

/-- C12: `CheckXDSSvrConfig` returns an error exactly when the server address is empty,
whatever the name, the two flags and the timeout are; a config that passes has a non-empty
address after the call. -/
theorem CheckXDSSvrConfig_error_iff (cfg : XDSServerConfig) :
    ((CheckXDSSvrConfig cfg).2 ≠ none ↔ cfg.SvrAddr = "") ∧
      ((CheckXDSSvrConfig cfg).2 = none ↔ (CheckXDSSvrConfig cfg).1.SvrAddr ≠ "") ∧
      (∀ (name : String) (auth nds : Bool) (timeout : Int),
        ((CheckXDSSvrConfig ⟨name, cfg.SvrAddr, auth, nds, timeout⟩).2 = none ↔
          (CheckXDSSvrConfig cfg).2 = none)) := by
  have key : ∀ c : XDSServerConfig, ((CheckXDSSvrConfig c).2 = none ↔ c.SvrAddr ≠ "") := by
    intro c
    unfold CheckXDSSvrConfig
    by_cases h : c.SvrAddr = "" <;> simp [h]
  refine ⟨?_, ?_, ?_⟩
  · rw [Ne, key cfg]
    exact not_not
  · rw [key cfg]
    unfold CheckXDSSvrConfig
    by_cases h : cfg.SvrAddr = ""
    · simp [h]
    · by_cases hn : cfg.SvrName = "" <;> simp [h, hn]
  · intro name auth nds timeout
    rw [key cfg, key]

/-- C13: for a config with a non-empty address, after `CheckXDSSvrConfig` the server name is
`istiod.istio-system.svc` if it was empty and the original name otherwise, and the address,
the two flags and the fetch timeout are unchanged. -/
theorem CheckXDSSvrConfig_default_name (cfg : XDSServerConfig) (h : cfg.SvrAddr ≠ "") :
    (CheckXDSSvrConfig cfg).1.SvrName =
        (if cfg.SvrName = "" then "istiod.istio-system.svc" else cfg.SvrName) ∧
      (CheckXDSSvrConfig cfg).1.SvrAddr = cfg.SvrAddr ∧
      (CheckXDSSvrConfig cfg).1.XDSAuth = cfg.XDSAuth ∧
      (CheckXDSSvrConfig cfg).1.NDSNotRequired = cfg.NDSNotRequired ∧
      (CheckXDSSvrConfig cfg).1.FetchXDSTimeout = cfg.FetchXDSTimeout := by
  unfold CheckXDSSvrConfig
  by_cases hn : cfg.SvrName = "" <;> simp [h, hn, IstiodSvrName]

/-- C13 at a config with an address and no name. -/
theorem CheckXDSSvrConfig_default_name_witness :
    demoConfig.SvrAddr ≠ "" ∧
      (CheckXDSSvrConfig demoConfig).1.SvrName =
        (if demoConfig.SvrName = "" then "istiod.istio-system.svc" else demoConfig.SvrName) ∧
      (CheckXDSSvrConfig demoConfig).1.SvrAddr = demoConfig.SvrAddr ∧
      (CheckXDSSvrConfig demoConfig).1.XDSAuth = demoConfig.XDSAuth ∧
      (CheckXDSSvrConfig demoConfig).1.NDSNotRequired = demoConfig.NDSNotRequired ∧
      (CheckXDSSvrConfig demoConfig).1.FetchXDSTimeout = demoConfig.FetchXDSTimeout :=
  ⟨by decide, CheckXDSSvrConfig_default_name demoConfig (by decide)⟩

/-- C15: `GetFetchXDSTimeout` returns the configured timeout when it is non-zero and the
default, one second, when it is zero, for every config. When `newBootstrapConfig` does not
fail, the stored config, which is also the caller's config after the call, is the config
passed in with `FetchXDSTimeout` set to what `GetFetchXDSTimeout` returned for it, every
other field unchanged. -/
theorem newBootstrapConfig_fetch_timeout (pj : String → Except GoError Struct)
    (getenv : String → String) (config : XDSServerConfig) :
    config.GetFetchXDSTimeout =
        (if config.FetchXDSTimeout = 0 then 1000000000 else config.FetchXDSTimeout) ∧
      ((newBootstrapConfig pj getenv config).err ≠ none ∨
        ((∃ bc, (newBootstrapConfig pj getenv config).bootstrap = some bc ∧
            bc.xdsSvrCfg = { config with FetchXDSTimeout := config.GetFetchXDSTimeout }) ∧
          (newBootstrapConfig pj getenv config).config =
            { config with FetchXDSTimeout := config.GetFetchXDSTimeout })) := by
  refine ⟨rfl, ?_⟩
  unfold newBootstrapConfig
  by_cases h1 : getenv PodNamespace = ""
  · simp [h1]
  · by_cases h2 : getenv PodName = ""
    · simp [h1, h2]
    · by_cases h3 : getenv InstanceIP = ""
      · simp [h1, h2, h3]
      · refine Or.inr ?_
        simp only [h1, h2, h3, if_false]
        unfold XDSServerConfig.GetFetchXDSTimeout
        by_cases h0 : config.FetchXDSTimeout = 0 <;> simp [h0]

/-- C20: a failing `CheckXDSSvrConfig` and a failing `newBootstrapConfig` leave the caller's
config as it was: either the call returns a nil error, or the config after the call equals
the config before it, field by field. -/
theorem failing_calls_leave_config (pj : String → Except GoError Struct)
    (getenv : String → String) (cfg : XDSServerConfig) :
    ((CheckXDSSvrConfig cfg).2 = none ∨ (CheckXDSSvrConfig cfg).1 = cfg) ∧
      ((newBootstrapConfig pj getenv cfg).err = none ∨
        (newBootstrapConfig pj getenv cfg).config = cfg) := by
  constructor
  · unfold CheckXDSSvrConfig
    by_cases h : cfg.SvrAddr = "" <;> simp [h]
  · unfold newBootstrapConfig
    by_cases h1 : getenv PodNamespace = ""
    · simp [h1]
    · by_cases h2 : getenv PodName = ""
      · simp [h1, h2]
      · by_cases h3 : getenv InstanceIP = ""
        · simp [h1, h2, h3]
        · simp [h1, h2, h3]

/-! ## Rendering of the enumerations -/

/-- C16: `ClusterDiscoveryType.String` renders the three members as `EDS`, `LOGICAL_DNS` and
`Static`, renders every value of the type as one of these three strings, and renders the
three members differently. -/
theorem ClusterDiscoveryType_String_render (d : ClusterDiscoveryType) :
    ClusterDiscoveryType.String ClusterDiscoveryTypeEDS = "EDS" ∧
      ClusterDiscoveryType.String ClusterDiscoveryTypeLogicalDNS = "LOGICAL_DNS" ∧
      ClusterDiscoveryType.String ClusterDiscoveryTypeStatic = "Static" ∧
      (ClusterDiscoveryType.String d = "EDS" ∨ ClusterDiscoveryType.String d = "LOGICAL_DNS" ∨
        ClusterDiscoveryType.String d = "Static") ∧
      ClusterDiscoveryType.String ClusterDiscoveryTypeEDS ≠
        ClusterDiscoveryType.String ClusterDiscoveryTypeLogicalDNS ∧
      ClusterDiscoveryType.String ClusterDiscoveryTypeEDS ≠
        ClusterDiscoveryType.String ClusterDiscoveryTypeStatic ∧
      ClusterDiscoveryType.String ClusterDiscoveryTypeLogicalDNS ≠
        ClusterDiscoveryType.String ClusterDiscoveryTypeStatic := by
  refine ⟨by decide, by decide, by decide, ?_, by decide, by decide, by decide⟩
  unfold ClusterDiscoveryType.String
  split
  · exact Or.inl rfl
  · split
    · exact Or.inr (Or.inl rfl)
    · exact Or.inr (Or.inr rfl)

/-- C17: `ClusterLbPolicy.String` renders `ClusterLbRoundRobin` as `roundrobin` and
`ClusterLbRingHash` as `ringhash`, and returns the empty string exactly for the values that
are neither of the two members. -/
theorem ClusterLbPolicy_String_render (p : ClusterLbPolicy) :
    ClusterLbPolicy.String ClusterLbRoundRobin = "roundrobin" ∧
      ClusterLbPolicy.String ClusterLbRingHash = "ringhash" ∧
      (ClusterLbPolicy.String p = "" ↔ (p ≠ ClusterLbRoundRobin ∧ p ≠ ClusterLbRingHash)) := by
  refine ⟨by decide, by decide, ?_⟩
  unfold ClusterLbPolicy.String
  by_cases h1 : p = ClusterLbRoundRobin
  · simp [h1]
  · by_cases h2 : p = ClusterLbRingHash
    · simp [h2]
      decide
    · simp [h1, h2]

/-! ## Counting entries -/

namespace GoMap

variable {V : Type}

theorem keys_set (m : GoMap V) (k : String) (v : V) :
    (m.set k v).keys = k :: m.keys.filter (fun a => a != k) := by
  simp only [keys, set, List.map_cons, List.filter_map]
  rfl

theorem nodup_keys_set (m : GoMap V) (k : String) (v : V) (h : m.keys.Nodup) :
    (m.set k v).keys.Nodup := by
  rw [keys_set, List.nodup_cons]
  refine ⟨?_, h.filter _⟩
  intro hk
  have := (List.mem_filter.mp hk).2
  simp at this

theorem len_eq_length_keys (m : GoMap V) : m.len = m.keys.length := by
  simp [len, keys]

theorem get?_eq_none_of_not_mem (m : GoMap V) (k : String) (h : k ∉ m.keys) :
    m.get? k = none := by
  rw [get?, List.lookup_eq_none_iff]
  intro p hp
  have hne : p.1 ≠ k := fun he => h (by rw [keys, List.mem_map]; exact ⟨p, hp, he⟩)
  simpa using fun he : k = p.1 => hne he.symm

end GoMap

theorem loop_keys_nodup (x : Externals) (rs : List AnyMsg) :
    (UnmarshalCDS.loop x rs).ret.keys.Nodup ∧ (UnmarshalCDS.loop x rs).errMap.keys.Nodup := by
  induction rs using List.reverseRecOn with
  | nil => exact ⟨List.nodup_nil, List.nodup_nil⟩
  | append_singleton rs r ih =>
    rw [loop_concat]
    rcases step_cases x (UnmarshalCDS.loop x rs) r with ⟨_, hs⟩ | ⟨e, _, _, hs⟩ | ⟨e, _, _, hs⟩
    · rw [hs]
      exact ⟨GoMap.nodup_keys_set _ _ _ ih.1, ih.2⟩
    · rw [hs]
      exact ih
    · rw [hs]
      exact ⟨ih.1, GoMap.nodup_keys_set _ _ _ ih.2⟩

theorem loop_ret_len (x : Externals) (rs : List AnyMsg)
    (h : ((rs.filter (fun r => decide ((unmarshalCluster x r).2.2 = none))).map
      (fun r => (unmarshalCluster x r).1)).Nodup) :
    (UnmarshalCDS.loop x rs).ret.len =
      (rs.filter (fun r => decide ((unmarshalCluster x r).2.2 = none))).length := by
  rw [GoMap.len_eq_length_keys]
  have hp := (List.perm_ext_iff_of_nodup (loop_keys_nodup x rs).1 h).mpr (by
    intro k
    rw [loop_ret_keys]
    simp only [List.mem_map, List.mem_filter, decide_eq_true_eq]
    constructor
    · rintro ⟨r, hr, h1, h2⟩
      exact ⟨r, ⟨hr, h1⟩, h2⟩
    · rintro ⟨r, ⟨hr, h1⟩, h2⟩
      exact ⟨r, hr, h1, h2⟩)
  rw [hp.length_eq, List.length_map]

theorem loop_errMap_len (x : Externals) (rs : List AnyMsg)
    (h : ((rs.filter (fun r => decide ((unmarshalCluster x r).2.2 ≠ none ∧
        (unmarshalCluster x r).1 ≠ ""))).map (fun r => (unmarshalCluster x r).1)).Nodup) :
    (UnmarshalCDS.loop x rs).errMap.len =
      (rs.filter (fun r => decide ((unmarshalCluster x r).2.2 ≠ none ∧
        (unmarshalCluster x r).1 ≠ ""))).length := by
  rw [GoMap.len_eq_length_keys]
  have hp := (List.perm_ext_iff_of_nodup (loop_keys_nodup x rs).2 h).mpr (by
    intro k
    rw [loop_errMap_keys]
    simp only [List.mem_map, List.mem_filter, decide_eq_true_eq]
    constructor
    · rintro ⟨hk, r, hr, h1, h2⟩
      exact ⟨r, ⟨hr, h1, h2 ▸ hk⟩, h2⟩
    · rintro ⟨r, ⟨hr, h1, h3⟩, h2⟩
      exact ⟨h2 ▸ h3, r, hr, h1, h2⟩)
  rw [hp.length_eq, List.length_map]

theorem loop_errSlice_length (x : Externals) (rs : List AnyMsg) :
    (UnmarshalCDS.loop x rs).errSlice.length =
      (rs.filter (fun r => decide ((unmarshalCluster x r).2.2 ≠ none ∧
        (unmarshalCluster x r).1 = ""))).length := by
  rw [loop_errSlice]
  induction rs with
  | nil => rfl
  | cons r rs ih =>
    rw [List.filterMap_cons, List.filter_cons]
    by_cases hn : (unmarshalCluster x r).1 = ""
    · cases he : (unmarshalCluster x r).2.2 with
      | none => simp [hn, he, ih]
      | some e => simp [hn, he, ih]
    · simp [hn, ih]

theorem failures_split (x : Externals) (rs : List AnyMsg) :
    (rs.filter (fun r => decide ((unmarshalCluster x r).2.2 ≠ none))).length =
      (rs.filter (fun r => decide ((unmarshalCluster x r).2.2 ≠ none ∧
        (unmarshalCluster x r).1 ≠ ""))).length +
      (rs.filter (fun r => decide ((unmarshalCluster x r).2.2 ≠ none ∧
        (unmarshalCluster x r).1 = ""))).length := by
  induction rs with
  | nil => rfl
  | cons r rs ih =>
    simp only [ne_eq] at ih
    simp only [List.filter_cons]
    by_cases he : (unmarshalCluster x r).2.2 = none
    · simp only [he, ne_eq, not_true_eq_false, false_and, decide_False, Bool.false_eq_true,
        if_false]
      exact ih
    · by_cases hn : (unmarshalCluster x r).1 = ""
      · simp only [he, hn, ne_eq, not_false_eq_true, not_true_eq_false, and_false, and_true,
          decide_True, decide_False, Bool.false_eq_true, if_true, if_false, List.length_cons]
        omega
      · simp only [he, hn, ne_eq, not_false_eq_true, and_false, and_true, and_self,
          decide_True, decide_False, Bool.false_eq_true, if_true, if_false, List.length_cons]
        omega

theorem successes_count (x : Externals) (rs : List AnyMsg) :
    (rs.filter (fun r => decide ((unmarshalCluster x r).2.2 = none))).length =
      rs.length - (rs.filter (fun r => decide ((unmarshalCluster x r).2.2 ≠ none))).length := by
  induction rs with
  | nil => rfl
  | cons r rs ih =>
    have hle : (rs.filter (fun r => decide ((unmarshalCluster x r).2.2 ≠ none))).length ≤
        rs.length := List.length_filter_le _ _
    simp only [ne_eq] at ih hle
    simp only [List.filter_cons, List.length_cons]
    by_cases he : (unmarshalCluster x r).2.2 = none
    · simp only [he, ne_eq, not_true_eq_false, decide_True, decide_False, Bool.false_eq_true,
        if_true, if_false, List.length_cons]
      omega
    · simp only [he, ne_eq, not_false_eq_true, decide_True, decide_False, Bool.false_eq_true,
        if_true, if_false, List.length_cons]
      omega

/-- C18, as stated, fails: two payloads that decode under the same name leave one entry in the
result map, not two, and two payloads that fail under the same name leave one entry in the
named-failure map, not two. -/
theorem UnmarshalCDS_counts_same_name :
    (demoSameName.length = 2 ∧
        (demoSameName.filter (fun r =>
          decide ((unmarshalCluster demoExternals r).2.2 ≠ none))).length = 0 ∧
        (UnmarshalCDS demoExternals demoSameName).1.len = 1) ∧
      ((demoSameFailure.filter (fun r =>
          decide ((unmarshalCluster demoExternals r).2.2 ≠ none))).length = 2 ∧
        (UnmarshalCDS.loop demoExternals demoSameFailure).errMap.len +
          (UnmarshalCDS.loop demoExternals demoSameFailure).errSlice.length = 1) ∧
      (UnmarshalCDS demoExternals demoSameName).1.len ≠
        demoSameName.length -
          (demoSameName.filter (fun r =>
            decide ((unmarshalCluster demoExternals r).2.2 ≠ none))).length := by
  decide

/-- C18, amended: for a batch of `n` payloads of which `k` fail, in which no two payloads that
decode return the same name and no two payloads that fail return the same non-empty name, the
result map of `UnmarshalCDS` has exactly `n - k` entries, and the named-failure map and the
anonymous-failure list together hold exactly `k` failures. -/
theorem UnmarshalCDS_counts (x : Externals) (rs : List AnyMsg)
    (hs : ((rs.filter (fun r => decide ((unmarshalCluster x r).2.2 = none))).map
      (fun r => (unmarshalCluster x r).1)).Nodup)
    (hf : ((rs.filter (fun r => decide ((unmarshalCluster x r).2.2 ≠ none ∧
        (unmarshalCluster x r).1 ≠ ""))).map (fun r => (unmarshalCluster x r).1)).Nodup) :
    (UnmarshalCDS x rs).1.len =
        rs.length - (rs.filter (fun r => decide ((unmarshalCluster x r).2.2 ≠ none))).length ∧
      (UnmarshalCDS.loop x rs).errMap.len + (UnmarshalCDS.loop x rs).errSlice.length =
        (rs.filter (fun r => decide ((unmarshalCluster x r).2.2 ≠ none))).length := by
  constructor
  · rw [UnmarshalCDS_fst, loop_ret_len x rs hs, successes_count]
  · rw [loop_errMap_len x rs hf, loop_errSlice_length, failures_split]

/-- C18 amended, at a batch of five payloads of which three fail. -/
theorem UnmarshalCDS_counts_witness :
    (UnmarshalCDS demoExternals demoBatch).1.len = 5 - 3 ∧
      (UnmarshalCDS.loop demoExternals demoBatch).errMap.len +
        (UnmarshalCDS.loop demoExternals demoBatch).errSlice.length = 3 := by
  have h := UnmarshalCDS_counts demoExternals demoBatch (by decide) (by decide)
  exact ⟨h.1.trans (by decide), h.2.trans (by decide)⟩

/-! ## Reordering a batch -/

theorem getLast?_perm_cases {α : Type} (l l' : List α) (hp : l.Perm l') :
    (l.getLast? = none ∧ l'.getLast? = none) ∨
      ∃ a b, a ∈ l ∧ b ∈ l ∧ l.getLast? = some a ∧ l'.getLast? = some b := by
  cases hl : l.getLast? with
  | none =>
    have hnil : l = [] := List.getLast?_eq_none_iff.mp hl
    subst hnil
    have : l' = [] := List.Perm.nil_eq hp |>.symm
    subst this
    exact Or.inl ⟨rfl, rfl⟩
  | some a =>
    cases hl' : l'.getLast? with
    | none =>
      have hnil : l' = [] := List.getLast?_eq_none_iff.mp hl'
      subst hnil
      have : l = [] := List.Perm.eq_nil hp
      subst this
      cases hl
    | some b =>
      exact Or.inr ⟨a, b, List.mem_of_getLast?_eq_some hl,
        hp.mem_iff.mpr (List.mem_of_getLast?_eq_some hl'), rfl, rfl⟩

/-- C19, as stated, fails: two payloads that decode under the same name to different
resources leave a different value in the result map when their order is exchanged. -/
theorem UnmarshalCDS_order_matters :
    demoSameName.reverse.Perm demoSameName ∧
      (UnmarshalCDS demoExternals demoSameName).1.get? "a" ≠
        (UnmarshalCDS demoExternals demoSameName.reverse).1.get? "a" :=
  ⟨List.reverse_perm _, by decide⟩

/-- C19, amended: take a batch in which any two payloads that decode under the same name
decode to the same resource, and any two payloads that fail under the same non-empty name fail
with the same error. Then for every permutation of it `UnmarshalCDS` returns the same result
map, the loop ends with the same named-failure map and with an anonymous-failure list that
has the same elements as a multiset, and the error is nil for the one exactly when it is for
the other. -/
theorem UnmarshalCDS_perm (x : Externals) (rs rs' : List AnyMsg) (hp : rs.Perm rs')
    (hs : ∀ r ∈ rs, ∀ r' ∈ rs, (unmarshalCluster x r).1 = (unmarshalCluster x r').1 →
      (unmarshalCluster x r).2.2 = none → (unmarshalCluster x r').2.2 = none →
      (unmarshalCluster x r).2.1 = (unmarshalCluster x r').2.1)
    (hf : ∀ r ∈ rs, ∀ r' ∈ rs, (unmarshalCluster x r).1 = (unmarshalCluster x r').1 →
      (unmarshalCluster x r).1 ≠ "" →
      (unmarshalCluster x r).2.2 ≠ none → (unmarshalCluster x r').2.2 ≠ none →
      (unmarshalCluster x r).2.2 = (unmarshalCluster x r').2.2) :
    (∀ k, (UnmarshalCDS x rs).1.get? k = (UnmarshalCDS x rs').1.get? k) ∧
      (∀ k, (UnmarshalCDS.loop x rs).errMap.get? k = (UnmarshalCDS.loop x rs').errMap.get? k) ∧
      (UnmarshalCDS.loop x rs).errSlice.Perm (UnmarshalCDS.loop x rs').errSlice ∧
      ((UnmarshalCDS x rs).2 = none ↔ (UnmarshalCDS x rs').2 = none) := by
  refine ⟨fun k => ?_, fun k => ?_, ?_, ?_⟩
  · rw [UnmarshalCDS_fst, UnmarshalCDS_fst, loop_ret_get?, loop_ret_get?]
    rcases getLast?_perm_cases _ _ (hp.filter (fun r =>
        decide ((unmarshalCluster x r).2.2 = none ∧ (unmarshalCluster x r).1 = k))) with
      ⟨h1, h2⟩ | ⟨a, b, ha, hb, h1, h2⟩
    · rw [h1, h2]
    · rw [h1, h2]
      simp only [List.mem_filter, decide_eq_true_eq] at ha hb
      simp only [Option.map_some']
      rw [hs a ha.1 b hb.1 (ha.2.2.trans hb.2.2.symm) ha.2.1 hb.2.1]
  · by_cases hk : k = ""
    · subst hk
      have h1 : "" ∉ (UnmarshalCDS.loop x rs).errMap.keys := fun h =>
        ((loop_errMap_keys x rs "").mp h).1 rfl
      have h2 : "" ∉ (UnmarshalCDS.loop x rs').errMap.keys := fun h =>
        ((loop_errMap_keys x rs' "").mp h).1 rfl
      rw [GoMap.get?_eq_none_of_not_mem _ _ h1, GoMap.get?_eq_none_of_not_mem _ _ h2]
    · rw [loop_errMap_get? x rs k hk, loop_errMap_get? x rs' k hk]
      rcases getLast?_perm_cases _ _ (hp.filter (fun r =>
          decide ((unmarshalCluster x r).2.2 ≠ none ∧ (unmarshalCluster x r).1 = k))) with
        ⟨h1, h2⟩ | ⟨a, b, ha, hb, h1, h2⟩
      · rw [h1, h2]
      · rw [h1, h2]
        simp only [List.mem_filter, decide_eq_true_eq] at ha hb
        simp only [Option.some_bind]
        exact hf a ha.1 b hb.1 (ha.2.2.trans hb.2.2.symm) (ha.2.2 ▸ hk) ha.2.1 hb.2.1
  · rw [loop_errSlice, loop_errSlice]
    exact hp.filterMap _
  · rw [UnmarshalCDS_snd_eq_none_iff, UnmarshalCDS_snd_eq_none_iff]
    constructor
    · intro h r hr
      exact h r (hp.mem_iff.mpr hr)
    · intro h r hr
      exact h r (hp.mem_iff.mp hr)

/-- C19 amended, at a batch of five payloads and its reversal. -/
theorem UnmarshalCDS_perm_witness :
    (∀ k, (UnmarshalCDS demoExternals demoBatch).1.get? k =
        (UnmarshalCDS demoExternals demoBatch.reverse).1.get? k) ∧
      (∀ k, (UnmarshalCDS.loop demoExternals demoBatch).errMap.get? k =
        (UnmarshalCDS.loop demoExternals demoBatch.reverse).errMap.get? k) ∧
      (UnmarshalCDS.loop demoExternals demoBatch).errSlice.Perm
        (UnmarshalCDS.loop demoExternals demoBatch.reverse).errSlice ∧
      ((UnmarshalCDS demoExternals demoBatch).2 = none ↔
        (UnmarshalCDS demoExternals demoBatch.reverse).2 = none) :=
  UnmarshalCDS_perm demoExternals demoBatch demoBatch.reverse (List.reverse_perm _).symm
    (by decide) (by decide)

end Xds
